import Mathlib

/-!
Verification of the cf-stack repository: five straight-line Python scripts
(vpc.py, security-groups.py, load-balancers.py, db.py, api-asg.py) that each
build one CloudFormation template with the troposphere library and write it to
a YAML file.  This file gives a shallow embedding of the template objects each
script constructs (transcribed declaration by declaration from the sources) and
of the final emission step, and proves the spec's claims about them.
-/

/-- A CloudFormation template property value, as built by the troposphere
calls in the five scripts: literal scalars, `Ref`, `GetAtt`, `FindInMap`,
`Sub`, `Select`, `GetAZs`, `Base64`, `ImportValue`, `Join`, lists, and nested
property objects (Tags, SecurityGroupRule, and so on). -/
inductive Val where
  | str : String → Val
  | int : Int → Val
  | bool : Bool → Val
  | ref : String → Val
  | getAtt : String → String → Val
  | findInMap : String → String → String → Val
  | sub : String → Val
  | select : Nat → Val → Val
  | getAZs : Val → Val
  | base64 : Val → Val
  | importValue : Val → Val
  | join : String → List Val → Val
  | vlist : List Val → Val
  | obj : List (String × Val) → Val

mutual

/-- All subterms of a value, the value itself included. -/
def subVals : Val → List Val
  | Val.select i v => Val.select i v :: subVals v
  | Val.getAZs v => Val.getAZs v :: subVals v
  | Val.base64 v => Val.base64 v :: subVals v
  | Val.importValue v => Val.importValue v :: subVals v
  | Val.join s vs => Val.join s vs :: subValsList vs
  | Val.vlist vs => Val.vlist vs :: subValsList vs
  | Val.obj kvs => Val.obj kvs :: subValsKV kvs
  | v => [v]

def subValsList : List Val → List Val
  | [] => []
  | v :: vs => subVals v ++ subValsList vs

def subValsKV : List (String × Val) → List Val
  | [] => []
  | (_, v) :: kvs => subVals v ++ subValsKV kvs

end

/-- A template Parameter, mirroring troposphere's `Parameter` keyword
arguments as used in the scripts. -/
structure Param where
  name : String
  ptype : String
  description : String := ""
  minLength : Option String := none
  maxLength : Option String := none
  allowedPattern : Option String := none
  constraintDescription : Option String := none
  defaultValue : Option String := none
  allowedValues : Option (List String) := none

/-- A template Resource: logical name, AWS resource type, optional DependsOn
targets, and the property map in source order. -/
structure Resource where
  name : String
  rtype : String
  dependsOn : List String := []
  props : List (String × Val) := []

/-- A template Output.  `exportName`, when present, is the raw `Sub` template
string passed to `Export(Sub(...))` in the source. -/
structure TOutput where
  name : String
  value : Val
  description : String := ""
  exportName : Option String := none

/-- The root template container, with the Parameter, Resource and Output
collections kept in the order of the script's add calls. -/
structure Template where
  version : String
  description : String
  mappings : List (String × List (String × List (String × String))) := []
  parameters : List Param := []
  resources : List Resource := []
  outputs : List TOutput := []

/-- Pseudo parameter values shared by the scripts
(`Ref("AWS::StackName")` and friends). -/
def ref_stack_name : Val := Val.ref "AWS::StackName"

def ref_region : Val := Val.ref "AWS::Region"

def ref_stack_id : Val := Val.ref "AWS::StackId"

namespace Vpc

/-- vpc.py: filename for the template. -/
def template_file : String := "templates/vpc.yaml"

def vpc_cidr_block : String := "10.10.0.0/16"

def public_subnet_1_cidr : String := "10.10.1.0/24"

def public_subnet_2_cidr : String := "10.10.2.0/24"

def public_subnet_3_cidr : String := "10.10.3.0/24"

def private_subnet_1_cidr : String := "10.10.128.0/24"

def private_subnet_2_cidr : String := "10.10.129.0/24"

def private_subnet_3_cidr : String := "10.10.130.0/24"

def office_ip_1 : String := "192.xxx.xxx.xxx/32"

def office_ip_2 : String := "192.xxx.xxx.xxx/32"

/-- vpc.py resource `VPC`. -/
def vpc : Resource :=
  { name := "VPC", rtype := "AWS::EC2::VPC",
    props := [
      ("CidrBlock", Val.findInMap "SubnetConfig" "VPC" "CIDR"),
      ("EnableDnsSupport", Val.str "true"),
      ("EnableDnsHostnames", Val.bool true),
      ("Tags", Val.obj [("Name", ref_stack_name),
                        ("Application", ref_stack_name)])] }

/-- vpc.py public subnets `PublicSubnet1`..`PublicSubnet3`. -/
def public_subnet (i : Nat) : Resource :=
  { name := "PublicSubnet" ++ toString i, rtype := "AWS::EC2::Subnet",
    props := [
      ("AvailabilityZone", Val.select (i - 1) (Val.getAZs ref_region)),
      ("CidrBlock", Val.findInMap "SubnetConfig" ("PublicSubnet" ++ toString i) "CIDR"),
      ("VpcId", Val.ref "VPC"),
      ("MapPublicIpOnLaunch", Val.bool true),
      ("Tags", Val.obj [
        ("Name", Val.join "-" [ref_stack_name,
                               Val.str ("public-subnet-" ++ toString i)]),
        ("Application", ref_stack_name)])] }

/-- vpc.py private subnets `PrivateSubnet1`..`PrivateSubnet3`. -/
def private_subnet (i : Nat) : Resource :=
  { name := "PrivateSubnet" ++ toString i, rtype := "AWS::EC2::Subnet",
    props := [
      ("AvailabilityZone", Val.select (i - 1) (Val.getAZs ref_region)),
      ("CidrBlock", Val.findInMap "SubnetConfig" ("PrivateSubnet" ++ toString i) "CIDR"),
      ("VpcId", Val.ref "VPC"),
      ("MapPublicIpOnLaunch", Val.bool false),
      ("Tags", Val.obj [
        ("Name", Val.join "-" [ref_stack_name,
                               Val.str ("private-subnet-" ++ toString i)]),
        ("Application", ref_stack_name)])] }

def internet_gateway : Resource :=
  { name := "InternetGateway", rtype := "AWS::EC2::InternetGateway",
    props := [("Tags", Val.obj [("Application", ref_stack_name)])] }

def gateway_attachment : Resource :=
  { name := "AttachGateway", rtype := "AWS::EC2::VPCGatewayAttachment",
    props := [("VpcId", Val.ref "VPC"),
              ("InternetGatewayId", Val.ref "InternetGateway")] }

def public_route_table : Resource :=
  { name := "PublicRouteTable", rtype := "AWS::EC2::RouteTable",
    props := [
      ("VpcId", Val.ref "VPC"),
      ("Tags", Val.obj [
        ("Name", Val.join "-" [ref_stack_name, Val.str "public-rt"]),
        ("Application", ref_stack_name)])] }

def private_route_table : Resource :=
  { name := "PrivateRouteTable", rtype := "AWS::EC2::RouteTable",
    props := [
      ("VpcId", Val.ref "VPC"),
      ("Tags", Val.obj [
        ("Name", Val.join "-" [ref_stack_name, Val.str "private-rt"]),
        ("Application", ref_stack_name)])] }

def route_to_internet : Resource :=
  { name := "RouteToInternet", rtype := "AWS::EC2::Route",
    dependsOn := ["AttachGateway"],
    props := [
      ("GatewayId", Val.ref "InternetGateway"),
      ("DestinationCidrBlock", Val.str "0.0.0.0/0"),
      ("RouteTableId", Val.ref "PublicRouteTable")] }

def nat_ip : Resource :=
  { name := "NatEip", rtype := "AWS::EC2::EIP",
    props := [("Domain", Val.str "vpc")] }

def nat_gateway : Resource :=
  { name := "NATGateway", rtype := "AWS::EC2::NatGateway",
    props := [
      ("AllocationId", Val.getAtt "NatEip" "AllocationId"),
      ("SubnetId", Val.ref "PublicSubnet1"),
      ("Tags", Val.obj [("Application", ref_stack_name)])] }

def nat_route : Resource :=
  { name := "NATRoute", rtype := "AWS::EC2::Route",
    props := [
      ("RouteTableId", Val.ref "PrivateRouteTable"),
      ("NatGatewayId", Val.ref "NATGateway"),
      ("DestinationCidrBlock", Val.str "0.0.0.0/0")] }

/-- vpc.py subnet/route-table associations. -/
def subnet_rt_association (kind : String) (i : Nat) : Resource :=
  { name := kind ++ "Subnet" ++ toString i ++ "RouteTableAssociation",
    rtype := "AWS::EC2::SubnetRouteTableAssociation",
    props := [
      ("SubnetId", Val.ref (kind ++ "Subnet" ++ toString i)),
      ("RouteTableId", Val.ref (kind ++ "RouteTable"))] }

def public_network_acl : Resource :=
  { name := "PublicNetworkAcl", rtype := "AWS::EC2::NetworkAcl",
    props := [
      ("VpcId", Val.ref "VPC"),
      ("Tags", Val.obj [
        ("Name", Val.join "-" [ref_stack_name, Val.str "public-nacl"]),
        ("Application", ref_stack_name)])] }

def private_network_acl : Resource :=
  { name := "PrivateNetworkAcl", rtype := "AWS::EC2::NetworkAcl",
    props := [
      ("VpcId", Val.ref "VPC"),
      ("Tags", Val.obj [
        ("Name", Val.join "-" [ref_stack_name, Val.str "private-nacl"]),
        ("Application", ref_stack_name)])] }

def inbound_public_acl_entry : Resource :=
  { name := "InboundPublicNetworkAclEntry", rtype := "AWS::EC2::NetworkAclEntry",
    props := [
      ("NetworkAclId", Val.ref "PublicNetworkAcl"),
      ("RuleNumber", Val.int 100),
      ("Protocol", Val.int (-1)),
      ("RuleAction", Val.str "allow"),
      ("Egress", Val.bool false),
      ("CidrBlock", Val.str "0.0.0.0/0")] }

def outbound_public_acl_entry : Resource :=
  { name := "OutboundPublicNetworkAclEntry", rtype := "AWS::EC2::NetworkAclEntry",
    props := [
      ("NetworkAclId", Val.ref "PublicNetworkAcl"),
      ("RuleNumber", Val.int 100),
      ("Protocol", Val.int (-1)),
      ("RuleAction", Val.str "allow"),
      ("Egress", Val.bool true),
      ("CidrBlock", Val.str "0.0.0.0/0")] }

def inbound_private_acl_entry : Resource :=
  { name := "InboundPrivateNetworkAclEntry", rtype := "AWS::EC2::NetworkAclEntry",
    props := [
      ("NetworkAclId", Val.ref "PrivateNetworkAcl"),
      ("RuleNumber", Val.int 110),
      ("Protocol", Val.int (-1)),
      ("RuleAction", Val.str "allow"),
      ("Egress", Val.bool false),
      ("CidrBlock", Val.str vpc_cidr_block)] }

def outbound_private_acl_entry : Resource :=
  { name := "OutboundPrivateNetworkAclEntry", rtype := "AWS::EC2::NetworkAclEntry",
    props := [
      ("NetworkAclId", Val.ref "PrivateNetworkAcl"),
      ("RuleNumber", Val.int 110),
      ("Protocol", Val.int (-1)),
      ("RuleAction", Val.str "allow"),
      ("Egress", Val.bool true),
      ("CidrBlock", Val.str "0.0.0.0/0")] }

/-- vpc.py subnet/network-ACL associations. -/
def subnet_nacl_association (kind : String) (i : Nat) : Resource :=
  { name := kind ++ "Subnet" ++ toString i ++ "NetworkACLAssociation",
    rtype := "AWS::EC2::SubnetNetworkAclAssociation",
    props := [
      ("SubnetId", Val.ref (kind ++ "Subnet" ++ toString i)),
      ("NetworkAclId", Val.ref (kind ++ "NetworkAcl"))] }

def dhcp_options : Resource :=
  { name := "DHCPOptions", rtype := "AWS::EC2::DHCPOptions",
    props := [
      ("DomainName", Val.join "." [ref_region, Val.str "compute.internal"]),
      ("DomainNameServers", Val.vlist [Val.str "AmazonProvidedDNS"]),
      ("Tags", Val.obj [("Application", ref_stack_name)])] }

def dhcp_options_association : Resource :=
  { name := "DHCPOptionsAssociation", rtype := "AWS::EC2::VPCDHCPOptionsAssociation",
    props := [
      ("DhcpOptionsId", Val.ref "DHCPOptions"),
      ("VpcId", Val.ref "VPC")] }

/-- The full template built by vpc.py, resources and outputs in the order of
the script's `add_resource`/`add_output` calls. -/
def template : Template :=
  { version := "2010-09-09",
    description := "VPC for hosting ACME Corp application.",
    mappings := [("SubnetConfig", [
      ("VPC", [("CIDR", vpc_cidr_block)]),
      ("PublicSubnet1", [("CIDR", public_subnet_1_cidr)]),
      ("PublicSubnet2", [("CIDR", public_subnet_2_cidr)]),
      ("PublicSubnet3", [("CIDR", public_subnet_3_cidr)]),
      ("PrivateSubnet1", [("CIDR", private_subnet_1_cidr)]),
      ("PrivateSubnet2", [("CIDR", private_subnet_2_cidr)]),
      ("PrivateSubnet3", [("CIDR", private_subnet_3_cidr)])])],
    parameters := [],
    resources := [
      vpc,
      public_subnet 1, public_subnet 2, public_subnet 3,
      private_subnet 1, private_subnet 2, private_subnet 3,
      internet_gateway, gateway_attachment,
      public_route_table, private_route_table, route_to_internet,
      nat_ip, nat_gateway, nat_route,
      subnet_rt_association "Public" 1, subnet_rt_association "Public" 2,
      subnet_rt_association "Public" 3,
      subnet_rt_association "Private" 1, subnet_rt_association "Private" 2,
      subnet_rt_association "Private" 3,
      public_network_acl, private_network_acl,
      inbound_public_acl_entry, outbound_public_acl_entry,
      inbound_private_acl_entry, outbound_private_acl_entry,
      subnet_nacl_association "Public" 1, subnet_nacl_association "Public" 2,
      subnet_nacl_association "Public" 3,
      subnet_nacl_association "Private" 1, subnet_nacl_association "Private" 2,
      subnet_nacl_association "Private" 3,
      dhcp_options, dhcp_options_association],
    outputs := [
      { name := "VPCID", value := Val.ref "VPC", description := "VPC ID",
        exportName := some "$\x7bAWS::StackName\x7d-id" },
      { name := "VPCCIDR", value := Val.str vpc_cidr_block,
        description := "VPC CIDR Block",
        exportName := some "$\x7bAWS::StackName\x7d-cidr" },
      { name := "PublicSubnet1ID", value := Val.ref "PublicSubnet1",
        description := "Public Subnet 1 ID",
        exportName := some "$\x7bAWS::StackName\x7d-publicsubnet1" },
      { name := "PublicSubnet2ID", value := Val.ref "PublicSubnet2",
        description := "Public Subnet 2 ID",
        exportName := some "$\x7bAWS::StackName\x7d-publicsubnet2" },
      { name := "PublicSubnet3ID", value := Val.ref "PublicSubnet3",
        description := "Public Subnet 3 ID",
        exportName := some "$\x7bAWS::StackName\x7d-publicsubnet3" },
      { name := "PrivateSubnet1ID", value := Val.ref "PrivateSubnet1",
        description := "Private Subnet 1 ID",
        exportName := some "$\x7bAWS::StackName\x7d-privatesubnet1" },
      { name := "PrivateSubnet2ID", value := Val.ref "PrivateSubnet2",
        description := "Private Subnet 2 ID",
        exportName := some "$\x7bAWS::StackName\x7d-privatesubnet2" },
      { name := "PrivateSubnet3ID", value := Val.ref "PrivateSubnet3",
        description := "Private Subnet 3 ID",
        exportName := some "$\x7bAWS::StackName\x7d-privatesubnet3" }] }

end Vpc

namespace SecurityGroups

/-- security-groups.py: filename for the template. -/
def template_file : String := "templates/security-groups.yaml"

def jumpserver_ip_1 : String := "xx.xx.xx.xx/32"

def jumpserver_ip_2 : String := "xx.xx.xx.xx/32"

/-- security-groups.py parameter `VPCStackName`. -/
def vpc_stackname_param : Param :=
  { name := "VPCStackName", ptype := "String",
    description := "Name of an active CloudFormation stack that contains the networking resources, such as the vpc, subnet and security group, that will be used in this stack.",
    minLength := some "1", maxLength := some "255",
    allowedPattern := some "^[a-zA-Z][-a-zA-Z0-9]*$" }

/-- security-groups.py resource `LoadBalancerSecurityGroup`. -/
def alb_security_group : Resource :=
  { name := "LoadBalancerSecurityGroup", rtype := "AWS::EC2::SecurityGroup",
    props := [
      ("GroupName", Val.join "-" [ref_stack_name, Val.str "alb-security-group"]),
      ("GroupDescription", Val.str "Enable traffic to load balancer listeners."),
      ("SecurityGroupIngress", Val.vlist [
        Val.obj [
          ("Description", Val.str "Enable HTTP access via port 80"),
          ("IpProtocol", Val.str "tcp"),
          ("FromPort", Val.int 80),
          ("ToPort", Val.int 80),
          ("CidrIp", Val.str "0.0.0.0/0")],
        Val.obj [
          ("Description", Val.str "Enable HTTPS access via port 443"),
          ("IpProtocol", Val.str "tcp"),
          ("FromPort", Val.int 443),
          ("ToPort", Val.int 443),
          ("CidrIp", Val.str "0.0.0.0/0")]]),
      ("VpcId", Val.importValue (Val.join "-" [Val.ref "VPCStackName", Val.str "id"])),
      ("Tags", Val.obj [
        ("Application", ref_stack_name),
        ("Name", Val.join "-" [ref_stack_name, Val.str "alb-security-group"])])] }

/-- security-groups.py resource `APIInstanceSecurityGroup`. -/
def api_security_group : Resource :=
  { name := "APIInstanceSecurityGroup", rtype := "AWS::EC2::SecurityGroup",
    props := [
      ("GroupName", Val.join "-" [ref_stack_name, Val.str "api-security-group"]),
      ("GroupDescription", Val.str "Security group for API server."),
      ("SecurityGroupIngress", Val.vlist [
        Val.obj [
          ("Description", Val.str "Enable SSH access via port 22"),
          ("IpProtocol", Val.str "tcp"),
          ("FromPort", Val.int 22),
          ("ToPort", Val.int 22),
          ("CidrIp", Val.str jumpserver_ip_1)],
        Val.obj [
          ("Description", Val.str "Enable SSH access via port 22"),
          ("IpProtocol", Val.str "tcp"),
          ("FromPort", Val.int 22),
          ("ToPort", Val.int 22),
          ("CidrIp", Val.str jumpserver_ip_2)],
        Val.obj [
          ("Description", Val.str "Enable HTTP port access from ALB."),
          ("IpProtocol", Val.str "tcp"),
          ("FromPort", Val.int 80),
          ("ToPort", Val.int 80),
          ("SourceSecurityGroupId", Val.ref "LoadBalancerSecurityGroup")]]),
      ("VpcId", Val.importValue (Val.join "-" [Val.ref "VPCStackName", Val.str "id"])),
      ("Tags", Val.obj [
        ("Application", ref_stack_name),
        ("Name", Val.join "-" [ref_stack_name, Val.str "api-security-group"])])] }

/-- security-groups.py resource `DBBrokerInstanceSecurityGroup`. -/
def db_broker_security_group : Resource :=
  { name := "DBBrokerInstanceSecurityGroup", rtype := "AWS::EC2::SecurityGroup",
    props := [
      ("GroupName", Val.join "-" [ref_stack_name, Val.str "db-broker-security-group"]),
      ("GroupDescription", Val.str "Enable access to db/broker instance from API."),
      ("SecurityGroupIngress", Val.vlist [
        Val.obj [
          ("Description", Val.str "Enable SSH access via port 22"),
          ("IpProtocol", Val.str "tcp"),
          ("FromPort", Val.int 22),
          ("ToPort", Val.int 22),
          ("SourceSecurityGroupId", Val.ref "APIInstanceSecurityGroup")],
        Val.obj [
          ("Description", Val.str "Enable db access via port 27017"),
          ("IpProtocol", Val.str "tcp"),
          ("FromPort", Val.int 27017),
          ("ToPort", Val.int 27017),
          ("SourceSecurityGroupId", Val.ref "APIInstanceSecurityGroup")],
        Val.obj [
          ("Description", Val.str "Enable broker access via port 5672"),
          ("IpProtocol", Val.str "tcp"),
          ("FromPort", Val.int 5672),
          ("ToPort", Val.int 5672),
          ("CidrIp", Val.importValue (Val.join "-" [Val.ref "VPCStackName", Val.str "cidr"]))]]),
      ("VpcId", Val.importValue (Val.join "-" [Val.ref "VPCStackName", Val.str "id"])),
      ("Tags", Val.obj [
        ("Application", ref_stack_name),
        ("Name", Val.join "-" [ref_stack_name, Val.str "db-broker-security-group"])])] }

/-- The full template built by security-groups.py. -/
def template : Template :=
  { version := "2010-09-09",
    description := "EC2 Security groups for ACME.",
    parameters := [vpc_stackname_param],
    resources := [alb_security_group, api_security_group, db_broker_security_group],
    outputs := [
      { name := "LoadBalancerSecurityGroupID",
        value := Val.ref "LoadBalancerSecurityGroup",
        description := "ALB Security Group ID",
        exportName := some "$\x7bAWS::StackName\x7d-loadbalancer" },
      { name := "APISecurityGroupID",
        value := Val.ref "APIInstanceSecurityGroup",
        description := "API Security Group ID",
        exportName := some "$\x7bAWS::StackName\x7d-api" },
      { name := "DatabaseBrokerSecurityGroupID",
        value := Val.ref "DBBrokerInstanceSecurityGroup",
        description := "Database/Broker Security Group ID",
        exportName := some "$\x7bAWS::StackName\x7d-database" }] }

end SecurityGroups

namespace LoadBalancers

/-- load-balancers.py: filename for the template. -/
def template_file : String := "templates/load-balancers.yaml"

def office_ip_1 : String := "192.xxx.xxx.xxx/32"

def office_ip_2 : String := "192.xxx.xxx.xxx/32"

def vpc_stackname_param : Param :=
  { name := "VPCStackName", ptype := "String",
    description := "Name of an active CloudFormation stack that contains the networking resources, such as the vpc and network subnet and that will be used in this stack.",
    minLength := some "1", maxLength := some "255",
    allowedPattern := some "^[a-zA-Z][-a-zA-Z0-9]*$" }

def sg_name_param : Param :=
  { name := "SecurityGroupName", ptype := "List<AWS::EC2::SecurityGroup::Id>",
    description := "Name of security group that will be attached to the Application Load Balancer." }

def db_broker_stackname_param : Param :=
  { name := "DBBrokerStackName", ptype := "String",
    description := "Name of an active CloudFormation stack that contains DB-Broker instances, that will be used in this stack.",
    minLength := some "1", maxLength := some "255",
    allowedPattern := some "^[a-zA-Z][-a-zA-Z0-9]*$" }

def api_listener_cert_arn : Param :=
  { name := "APIListenerCert", ptype := "String",
    description := "ARN of the certificate to be used in API listener.",
    minLength := some "1", maxLength := some "255" }

/-- load-balancers.py resource `APILoadBalancer`. -/
def api_load_balancer : Resource :=
  { name := "APILoadBalancer", rtype := "AWS::ElasticLoadBalancingV2::LoadBalancer",
    props := [
      ("Name", Val.join "-" [ref_stack_name, Val.str "api"]),
      ("IpAddressType", Val.str "ipv4"),
      ("LoadBalancerAttributes", Val.vlist [
        Val.obj [("Key", Val.str "deletion_protection.enabled"),
                 ("Value", Val.str "true")]]),
      ("Scheme", Val.str "internet-facing"),
      ("SecurityGroups", Val.ref "SecurityGroupName"),
      ("Subnets", Val.vlist [
        Val.importValue (Val.join "-" [Val.ref "VPCStackName", Val.str "publicsubnet1"]),
        Val.importValue (Val.join "-" [Val.ref "VPCStackName", Val.str "publicsubnet2"]),
        Val.importValue (Val.join "-" [Val.ref "VPCStackName", Val.str "publicsubnet3"])]),
      ("Type", Val.str "application"),
      ("Tags", Val.obj [("Application", ref_stack_name)])] }

/-- load-balancers.py resource `MQLoadBalancer`. -/
def mq_load_balancer : Resource :=
  { name := "MQLoadBalancer", rtype := "AWS::ElasticLoadBalancingV2::LoadBalancer",
    props := [
      ("Name", Val.join "-" [ref_stack_name, Val.str "mq"]),
      ("IpAddressType", Val.str "ipv4"),
      ("LoadBalancerAttributes", Val.vlist [
        Val.obj [("Key", Val.str "deletion_protection.enabled"),
                 ("Value", Val.str "true")],
        Val.obj [("Key", Val.str "load_balancing.cross_zone.enabled"),
                 ("Value", Val.str "true")]]),
      ("Scheme", Val.str "internal"),
      ("Subnets", Val.vlist [
        Val.importValue (Val.join "-" [Val.ref "VPCStackName", Val.str "publicsubnet1"]),
        Val.importValue (Val.join "-" [Val.ref "VPCStackName", Val.str "publicsubnet2"]),
        Val.importValue (Val.join "-" [Val.ref "VPCStackName", Val.str "publicsubnet3"])]),
      ("Type", Val.str "network"),
      ("Tags", Val.obj [("Application", ref_stack_name)])] }

/-- load-balancers.py resource `APITargetGroup`. -/
def api_target_group : Resource :=
  { name := "APITargetGroup", rtype := "AWS::ElasticLoadBalancingV2::TargetGroup",
    props := [
      ("Name", Val.join "-" [ref_stack_name, Val.str "api-tg"]),
      ("Port", Val.int 80),
      ("Protocol", Val.str "HTTP"),
      ("HealthCheckEnabled", Val.bool true),
      ("HealthCheckProtocol", Val.str "HTTP"),
      ("HealthCheckPath", Val.str "/greetings"),
      ("HealthCheckPort", Val.str "traffic-port"),
      ("HealthyThresholdCount", Val.int 2),
      ("UnhealthyThresholdCount", Val.int 2),
      ("HealthCheckTimeoutSeconds", Val.int 2),
      ("HealthCheckIntervalSeconds", Val.int 5),
      ("Matcher", Val.obj [("HttpCode", Val.str "200")]),
      ("TargetType", Val.str "instance"),
      ("VpcId", Val.importValue (Val.join "-" [Val.ref "VPCStackName", Val.str "id"])),
      ("Tags", Val.obj [("Application", ref_stack_name)])] }

/-- load-balancers.py resource `MQTargetGroup`. -/
def mq_target_group : Resource :=
  { name := "MQTargetGroup", rtype := "AWS::ElasticLoadBalancingV2::TargetGroup",
    props := [
      ("Name", Val.join "-" [ref_stack_name, Val.str "mq-tg"]),
      ("Port", Val.int 5672),
      ("Protocol", Val.str "TCP"),
      ("HealthCheckEnabled", Val.bool true),
      ("HealthCheckProtocol", Val.str "TCP"),
      ("HealthCheckPort", Val.str "traffic-port"),
      ("HealthyThresholdCount", Val.int 3),
      ("UnhealthyThresholdCount", Val.int 3),
      ("HealthCheckTimeoutSeconds", Val.int 10),
      ("HealthCheckIntervalSeconds", Val.int 30),
      ("Targets", Val.vlist [
        Val.obj [("Id", Val.importValue (Val.join "-" [Val.ref "DBBrokerStackName", Val.str "instance-1"])),
                 ("Port", Val.int 5672)],
        Val.obj [("Id", Val.importValue (Val.join "-" [Val.ref "DBBrokerStackName", Val.str "instance-2"])),
                 ("Port", Val.int 5672)],
        Val.obj [("Id", Val.importValue (Val.join "-" [Val.ref "DBBrokerStackName", Val.str "instance-3"])),
                 ("Port", Val.int 5672)]]),
      ("TargetType", Val.str "instance"),
      ("VpcId", Val.importValue (Val.join "-" [Val.ref "VPCStackName", Val.str "id"])),
      ("Tags", Val.obj [("Application", ref_stack_name)])] }

/-- load-balancers.py resource `MQUITargetGroup`. -/
def mq_ui_target_group : Resource :=
  { name := "MQUITargetGroup", rtype := "AWS::ElasticLoadBalancingV2::TargetGroup",
    props := [
      ("Name", Val.join "-" [ref_stack_name, Val.str "mq-ui-tg"]),
      ("Port", Val.int 80),
      ("Protocol", Val.str "HTTP"),
      ("HealthCheckEnabled", Val.bool true),
      ("HealthCheckProtocol", Val.str "HTTP"),
      ("HealthCheckPort", Val.str "traffic-port"),
      ("HealthyThresholdCount", Val.int 3),
      ("UnhealthyThresholdCount", Val.int 3),
      ("HealthCheckTimeoutSeconds", Val.int 10),
      ("HealthCheckIntervalSeconds", Val.int 30),
      ("Targets", Val.vlist [
        Val.obj [("Id", Val.importValue (Val.join "-" [Val.ref "DBBrokerStackName", Val.str "instance-1"])),
                 ("Port", Val.int 80)],
        Val.obj [("Id", Val.importValue (Val.join "-" [Val.ref "DBBrokerStackName", Val.str "instance-2"])),
                 ("Port", Val.int 80)],
        Val.obj [("Id", Val.importValue (Val.join "-" [Val.ref "DBBrokerStackName", Val.str "instance-3"])),
                 ("Port", Val.int 80)]]),
      ("TargetType", Val.str "instance"),
      ("VpcId", Val.importValue (Val.join "-" [Val.ref "VPCStackName", Val.str "id"])),
      ("Tags", Val.obj [("Application", ref_stack_name)])] }

/-- load-balancers.py resource `APIHTTPListner` (sic). -/
def api_http_listener : Resource :=
  { name := "APIHTTPListner", rtype := "AWS::ElasticLoadBalancingV2::Listener",
    props := [
      ("Port", Val.int 80),
      ("Protocol", Val.str "HTTP"),
      ("LoadBalancerArn", Val.ref "APILoadBalancer"),
      ("DefaultActions", Val.vlist [
        Val.obj [
          ("Type", Val.str "fixed-response"),
          ("FixedResponseConfig", Val.obj [
            ("ContentType", Val.str "text/plain"),
            ("MessageBody", Val.str "Page Not Found"),
            ("StatusCode", Val.str "404")])]])] }

/-- load-balancers.py resource `APIHTTPSListner` (sic). -/
def api_https_listener : Resource :=
  { name := "APIHTTPSListner", rtype := "AWS::ElasticLoadBalancingV2::Listener",
    props := [
      ("Port", Val.int 443),
      ("Protocol", Val.str "HTTPS"),
      ("Certificates", Val.vlist [
        Val.obj [("CertificateArn", Val.ref "APIListenerCert")]]),
      ("SslPolicy", Val.str "ELBSecurityPolicy-TLS-1-1-2017-01"),
      ("LoadBalancerArn", Val.ref "APILoadBalancer"),
      ("DefaultActions", Val.vlist [
        Val.obj [
          ("Type", Val.str "fixed-response"),
          ("FixedResponseConfig", Val.obj [
            ("ContentType", Val.str "text/plain"),
            ("MessageBody", Val.str "Page Not Found"),
            ("StatusCode", Val.str "404")])]])] }

/-- load-balancers.py resource `MQListner` (sic). -/
def mq_listener : Resource :=
  { name := "MQListner", rtype := "AWS::ElasticLoadBalancingV2::Listener",
    props := [
      ("Port", Val.int 5672),
      ("Protocol", Val.str "TCP"),
      ("LoadBalancerArn", Val.ref "MQLoadBalancer"),
      ("DefaultActions", Val.vlist [
        Val.obj [
          ("Type", Val.str "forward"),
          ("TargetGroupArn", Val.ref "MQTargetGroup")]])] }

/-- load-balancers.py resource `APIHTTPListenerRule`. -/
def api_http_listener_rule : Resource :=
  { name := "APIHTTPListenerRule", rtype := "AWS::ElasticLoadBalancingV2::ListenerRule",
    props := [
      ("ListenerArn", Val.ref "APIHTTPListner"),
      ("Conditions", Val.vlist [
        Val.obj [
          ("Field", Val.str "host-header"),
          ("Values", Val.vlist [Val.str "app.acme.com", Val.str "api.acme.com"])]]),
      ("Actions", Val.vlist [
        Val.obj [
          ("Type", Val.str "redirect"),
          ("RedirectConfig", Val.obj [
            ("StatusCode", Val.str "HTTP_301"),
            ("Protocol", Val.str "HTTPS"),
            ("Port", Val.str "443")])]]),
      ("Priority", Val.int 1)] }

/-- load-balancers.py resource `APIHTTPSRule`. -/
def api_https_listener_rule : Resource :=
  { name := "APIHTTPSRule", rtype := "AWS::ElasticLoadBalancingV2::ListenerRule",
    props := [
      ("ListenerArn", Val.ref "APIHTTPSListner"),
      ("Conditions", Val.vlist [
        Val.obj [
          ("Field", Val.str "host-header"),
          ("Values", Val.vlist [Val.str "app.acme.com", Val.str "api.acme.com"])]]),
      ("Actions", Val.vlist [
        Val.obj [
          ("Type", Val.str "forward"),
          ("TargetGroupArn", Val.ref "MQUITargetGroup")]]),
      ("Priority", Val.int 2)] }

/-- The full template built by load-balancers.py. -/
def template : Template :=
  { version := "2010-09-09",
    description := "Load balancers for ACME.",
    parameters := [vpc_stackname_param, sg_name_param,
                   db_broker_stackname_param, api_listener_cert_arn],
    resources := [
      api_load_balancer, mq_load_balancer,
      api_target_group, mq_target_group, mq_ui_target_group,
      api_http_listener, api_https_listener, mq_listener,
      api_http_listener_rule, api_https_listener_rule],
    outputs := [
      { name := "APILoadBalancer", value := Val.ref "APILoadBalancer",
        description := "API Load Balancer ID",
        exportName := some "$\x7bAWS::StackName\x7d-api" },
      { name := "APITargetGroup", value := Val.ref "APITargetGroup",
        description := "API Target Group Name",
        exportName := some "$\x7bAWS::StackName\x7d-api-tg" },
      { name := "MQTargetGroup", value := Val.ref "MQTargetGroup",
        description := "MQ Target Group Name",
        exportName := some "$\x7bAWS::StackName\x7d-mq-tg" },
      { name := "MQUITargetGroup", value := Val.ref "MQUITargetGroup",
        description := "MQ UI Target Group Name",
        exportName := some "$\x7bAWS::StackName\x7d-mq-ui-tg" },
      { name := "APILoadBalancerDNS", value := Val.getAtt "APILoadBalancer" "DNSName",
        description := "API Load Balancer DNS name",
        exportName := some "$\x7bAWS::StackName\x7d-api-dns" },
      { name := "MQLoadBalancerDNS", value := Val.getAtt "MQLoadBalancer" "DNSName",
        description := "MQ Load Balancer DNS name",
        exportName := some "$\x7bAWS::StackName\x7d-mq-dns" }] }

end LoadBalancers

namespace Db

/-- db.py: filename for the template. -/
def template_file : String := "templates/db.yaml"

def vpc_stackname_param : Param :=
  { name := "VPCStackName", ptype := "String",
    description := "Name of an active CloudFormation stack that contains the networking resources, such as the vpc, subnet and security group, that will be used in this stack.",
    minLength := some "1", maxLength := some "255",
    allowedPattern := some "^[a-zA-Z][-a-zA-Z0-9]*$" }

def keyname_param : Param :=
  { name := "KeyName", ptype := "AWS::EC2::KeyPair::KeyName",
    description := "Name of an existing EC2 KeyPair to enable SSH access to the instance",
    constraintDescription := some "must be the name of an existing EC2 KeyPair." }

def db_ami_param : Param :=
  { name := "DBAMI", ptype := "AWS::EC2::Image::Id",
    description := "Name of existing AMI to create the DB instance",
    constraintDescription := some "must be the name of an existing EC2 AMI." }

/-- db.py parameter `InstanceType`, with its full AllowedValues list. -/
def db_instancetype_param : Param :=
  { name := "InstanceType", ptype := "String",
    description := "Database EC2 instance type",
    defaultValue := some "m3.medium",
    allowedValues := some ["a1.medium", "a1.large", "a1.xlarge", "a1.2xlarge",
      "a1.4xlarge", "m4.large", "m4.xlarge", "m4.2xlarge",
      "m4.4xlarge", "m4.10xlarge", "m4.16xlarge", "m5.large",
      "m5.xlarge", "m5.2xlarge", "m5.4xlarge", "m5.12xlarge",
      "m5.24xlarge", "m5a.large", "m5a.xlarge", "m5a.2xlarge",
      "m5a.4xlarge", "m5a.12xlarge", "m5a.24xlarge",
      "m5d.large", "m5d.xlarge", "m5d.2xlarge", "m5d.4xlarge",
      "m5d.12xlarge", "m5d.24xlarge", "t2.nano", "t2.micro",
      "t2.small", "t2.medium", "t2.large", "t2.xlarge",
      "t2.2xlarge", "t3.nano", "t3.micro", "t3.small",
      "t3.medium", "t3.large", "t3.xlarge", "t3.2xlarge",
      "c4.large", "c4.xlarge", "c4.2xlarge", "c4.4xlarge",
      "c4.8xlarge", "c5.large", "c5.xlarge", "c5.2xlarge",
      "c5.4xlarge", "c5.9xlarge", "c5.18xlarge", "c5d.xlarge",
      "c5d.2xlarge", "c5d.4xlarge", "c5d.9xlarge",
      "c5d.18xlarge", "c5n.large", "c5n.xlarge",
      "c5n.2xlarge", "c5n.4xlarge", "c5n.9xlarge",
      "c5n.18xlarge", "r4.large", "r4.xlarge", "r4.2xlarge",
      "r4.4xlarge", "r4.8xlarge", "r4.16xlarge", "r5.large",
      "r5.xlarge", "r5.2xlarge", "r5.4xlarge", "r5.12xlarge",
      "r5.24xlarge", "r5a.large", "r5a.xlarge", "r5a.2xlarge",
      "r5a.4xlarge", "r5a.12xlarge", "r5a.24xlarge",
      "r5d.large", "r5d.xlarge", "r5d.2xlarge", "r5d.4xlarge",
      "r5d.12xlarge", "r5d.24xlarge", "x1.16xlarge",
      "x1.32xlarge", "x1e.xlarge", "x1e.2xlarge",
      "x1e.4xlarge", "x1e.8xlarge", "x1e.16xlarge",
      "x1e.32xlarge", "z1d.large", "z1d.xlarge",
      "z1d.2xlarge", "z1d.3xlarge", "z1d.6xlarge",
      "z1d.12xlarge", "d2.xlarge", "d2.2xlarge", "d2.4xlarge",
      "d2.8xlarge", "h1.2xlarge", "h1.4xlarge", "h1.8xlarge",
      "h1.16xlarge", "i3.large", "i3.xlarge", "i3.2xlarge",
      "i3.4xlarge", "i3.8xlarge", "i3.16xlarge", "f1.2xlarge",
      "f1.4xlarge", "f1.16xlarge", "g3s.xlarge", "g3.4xlarge",
      "g3.8xlarge", "g3.16xlarge", "p2.xlarge", "p2.8xlarge",
      "p2.16xlarge", "p3.2xlarge", "p3.8xlarge",
      "p3.16xlarge", "p3dn.24xlarge", "m1.small", "m1.medium",
      "m1.large", "m1.xlarge", "m3.medium", "m3.large",
      "m3.xlarge", "m3.2xlarge", "c1.medium", "c1.xlarge",
      "cc2.8xlarge", "c3.large", "c3.xlarge",
      "c3.2xlarge", "c3.4xlarge", "c3.8xlarge", "m2.xlarge",
      "m2.2xlarge", "m2.4xlarge", "cr1.8xlarge", "r3.large",
      "r3.xlarge", "r3.2xlarge", "r3.4xlarge",
      "r3.8xlarge", "hs1.8xlarge", "i2.xlarge", "i2.2xlarge",
      "i2.4xlarge", "i2.8xlarge", "g2.2xlarge", "g2.8xlarge",
      "t1.micro"],
    constraintDescription := some "must be a valid EC2 instance type." }

def sg_name_param : Param :=
  { name := "SecurityGroupName", ptype := "List<AWS::EC2::SecurityGroup::Id>",
    description := "Name of security group that will be attached to the Database server." }

/-- db.py instances `DBServer1`..`DBServer3`. -/
def db_instance (i : Nat) : Resource :=
  { name := "DBServer" ++ toString i, rtype := "AWS::EC2::Instance",
    props := [
      ("ImageId", Val.ref "DBAMI"),
      ("InstanceType", Val.ref "InstanceType"),
      ("KeyName", Val.ref "KeyName"),
      ("SubnetId", Val.importValue (Val.join "-"
        [Val.ref "VPCStackName", Val.str ("privatesubnet" ++ toString i)])),
      ("SecurityGroupIds", Val.ref "SecurityGroupName"),
      ("Tags", Val.obj [
        ("Application", ref_stack_name),
        ("Name", Val.join "-" [ref_stack_name, Val.str ("instance-" ++ toString i)])])] }

/-- The full template built by db.py. -/
def template : Template :=
  { version := "2010-09-09",
    description := "Setup DB servers for ACME.",
    parameters := [vpc_stackname_param, keyname_param, db_ami_param,
                   db_instancetype_param, sg_name_param],
    resources := [db_instance 1, db_instance 2, db_instance 3],
    outputs := [
      { name := "DBServer1", value := Val.ref "DBServer1",
        description := "DB Instance ID",
        exportName := some "$\x7bAWS::StackName\x7d-instance-1" },
      { name := "DBServer2", value := Val.ref "DBServer2",
        description := "DB Instance ID",
        exportName := some "$\x7bAWS::StackName\x7d-instance-2" },
      { name := "DBServer3", value := Val.ref "DBServer3",
        description := "DB Instance ID",
        exportName := some "$\x7bAWS::StackName\x7d-instance-3" }] }

end Db

namespace ApiAsg

/-- api-asg.py: filename for the template. -/
def template_file : String := "templates/api-asg.yaml"

def api_ami_param : Param :=
  { name := "APIAMIID", ptype := "AWS::EC2::Image::Id",
    description := "AMI ID to be used for launching API server." }

def api_iam_profile_param : Param :=
  { name := "APIInstanceIAMProfile", ptype := "String",
    description := "IAM Instance profile for API server.",
    minLength := some "1" }

/-- api-asg.py parameter `InstanceType`, with its full AllowedValues list. -/
def api_instance_type_param : Param :=
  { name := "InstanceType", ptype := "String",
    description := "API server EC2 instance type",
    defaultValue := some "m3.medium",
    allowedValues := some ["a1.medium", "a1.large", "a1.xlarge", "a1.2xlarge",
      "a1.4xlarge", "m4.large", "m4.xlarge", "m4.2xlarge",
      "m4.4xlarge", "m4.10xlarge", "m4.16xlarge", "m5.large",
      "m5.xlarge", "m5.2xlarge", "m5.4xlarge", "m5.12xlarge",
      "m5.24xlarge", "m5a.large", "m5a.xlarge", "m5a.2xlarge",
      "m5a.4xlarge", "m5a.12xlarge", "m5a.24xlarge",
      "m5d.large", "m5d.xlarge", "m5d.2xlarge", "m5d.4xlarge",
      "m5d.12xlarge", "m5d.24xlarge", "t2.nano", "t2.micro",
      "t2.small", "t2.medium", "t2.large", "t2.xlarge",
      "t2.2xlarge", "t3.nano", "t3.micro", "t3.small",
      "t3.medium", "t3.large", "t3.xlarge", "t3.2xlarge",
      "c4.large", "c4.xlarge", "c4.2xlarge", "c4.4xlarge",
      "c4.8xlarge", "c5.large", "c5.xlarge", "c5.2xlarge",
      "c5.4xlarge", "c5.9xlarge", "c5.18xlarge", "c5d.xlarge",
      "c5d.2xlarge", "c5d.4xlarge", "c5d.9xlarge",
      "c5d.18xlarge", "c5n.large", "c5n.xlarge",
      "c5n.2xlarge", "c5n.4xlarge", "c5n.9xlarge",
      "c5n.18xlarge", "r4.large", "r4.xlarge", "r4.2xlarge",
      "r4.4xlarge", "r4.8xlarge", "r4.16xlarge", "r5.large",
      "r5.xlarge", "r5.2xlarge", "r5.4xlarge", "r5.12xlarge",
      "r5.24xlarge", "r5a.large", "r5a.xlarge", "r5a.2xlarge",
      "r5a.4xlarge", "r5a.12xlarge", "r5a.24xlarge",
      "r5d.large", "r5d.xlarge", "r5d.2xlarge", "r5d.4xlarge",
      "r5d.12xlarge", "r5d.24xlarge", "x1.16xlarge",
      "x1.32xlarge", "x1e.xlarge", "x1e.2xlarge",
      "x1e.4xlarge", "x1e.8xlarge", "x1e.16xlarge",
      "x1e.32xlarge", "z1d.large", "z1d.xlarge",
      "z1d.2xlarge", "z1d.3xlarge", "z1d.6xlarge",
      "z1d.12xlarge", "d2.xlarge", "d2.2xlarge", "d2.4xlarge",
      "d2.8xlarge", "h1.2xlarge", "h1.4xlarge", "h1.8xlarge",
      "h1.16xlarge", "i3.large", "i3.xlarge", "i3.2xlarge",
      "i3.4xlarge", "i3.8xlarge", "i3.16xlarge", "f1.2xlarge",
      "f1.4xlarge", "f1.16xlarge", "g3s.xlarge", "g3.4xlarge",
      "g3.8xlarge", "g3.16xlarge", "p2.xlarge", "p2.8xlarge",
      "p2.16xlarge", "p3.2xlarge", "p3.8xlarge",
      "p3.16xlarge", "p3dn.24xlarge",
      "m1.small", "m1.medium", "m1.large", "m1.xlarge",
      "m3.medium", "m3.large", "m3.xlarge", "m3.2xlarge",
      "c1.medium", "c1.xlarge", "cc2.8xlarge", "c3.large",
      "c3.xlarge", "c3.2xlarge", "c3.4xlarge", "c3.8xlarge",
      "m2.xlarge", "m2.2xlarge", "m2.4xlarge", "cr1.8xlarge",
      "r3.large", "r3.xlarge", "r3.2xlarge", "r3.4xlarge",
      "r3.8xlarge", "hs1.8xlarge", "i2.xlarge", "i2.2xlarge",
      "i2.4xlarge", "i2.8xlarge", "g2.2xlarge", "g2.8xlarge",
      "t1.micro"],
    constraintDescription := some "must be a valid EC2 instance type." }

def keyname_param : Param :=
  { name := "KeyName", ptype := "AWS::EC2::KeyPair::KeyName",
    description := "Name of an existing EC2 KeyPair to enable SSH access to the instance",
    constraintDescription := some "must be the name of an existing EC2 KeyPair." }

def sg_name_param : Param :=
  { name := "SecurityGroupName", ptype := "List<AWS::EC2::SecurityGroup::Id>",
    description := "Name of security group that will be attached to the API instance." }

def vpc_stackname_param : Param :=
  { name := "VPCStackName", ptype := "String",
    description := "Name of an active CloudFormation stack that contains the networking resources, such as the vpc, subnet and security group, that will be used in this stack.",
    minLength := some "1", maxLength := some "255",
    allowedPattern := some "^[a-zA-Z][-a-zA-Z0-9]*$" }

def lb_stackname_param : Param :=
  { name := "LoadBalancerStackName", ptype := "String",
    description := "Name of an active CloudFormation stack that contains load balancers, that will be used in this stack.",
    minLength := some "1", maxLength := some "255",
    allowedPattern := some "^[a-zA-Z][-a-zA-Z0-9]*$" }

/-- api-asg.py resource `LaunchConfiguration`.  `datestr` is the
`now.strftime("%Y%m%d")` current-date token embedded into the
launch-configuration name. -/
def launch_configuration (datestr : String) : Resource :=
  { name := "LaunchConfiguration", rtype := "AWS::AutoScaling::LaunchConfiguration",
    props := [
      ("AssociatePublicIpAddress", Val.bool true),
      ("BlockDeviceMappings", Val.vlist [
        Val.obj [
          ("DeviceName", Val.str "/dev/sda1"),
          ("Ebs", Val.obj [
            ("VolumeSize", Val.int 30),
            ("VolumeType", Val.str "standard")])]]),
      ("EbsOptimized", Val.bool false),
      ("IamInstanceProfile", Val.ref "APIInstanceIAMProfile"),
      ("ImageId", Val.ref "APIAMIID"),
      ("InstanceMonitoring", Val.bool false),
      ("InstanceType", Val.ref "InstanceType"),
      ("KeyName", Val.ref "KeyName"),
      ("LaunchConfigurationName", Val.join "-"
        [ref_stack_name, Val.str ("lc-" ++ datestr)]),
      ("SecurityGroups", Val.ref "SecurityGroupName"),
      ("UserData", Val.base64 (Val.join "" [
        Val.str "#!/bin/bash\n",
        Val.str "apt-get -y update\n",
        Val.str "apt-get -y install ruby\n",
        Val.str "apt-get -y install wget\n",
        Val.str "cd /home/ubuntu\n",
        Val.str "wget https://",
        Val.str "aws-codedeploy-us-west-2.s3.amazonaws.com/latest/install\n",
        Val.str "chmod +x ./install\n",
        Val.str "./install auto\n",
        Val.str "service codedeploy-agent start\n\n",
        Val.str "# Deploy ACME UI.\n",
        Val.str "aws deploy create-deployment --region us-west-2",
        Val.str " --application-name acme-ui",
        Val.str " --deployment-group-name staging",
        Val.str " --update-outdated-instances-only\n\n",
        Val.str "sleep 600\n\n",
        Val.str "# Deploy API framework.\n",
        Val.str "aws deploy create-deployment --region us-west-2",
        Val.str " --application-name acme-api-framework",
        Val.str " --deployment-group-name staging",
        Val.str " --update-outdated-instances-only\n\n",
        Val.str "sleep 600\n\n"]))] }

/-- api-asg.py resource `APIAutoScalingGroup`. -/
def api_auto_scaling_group : Resource :=
  { name := "APIAutoScalingGroup", rtype := "AWS::AutoScaling::AutoScalingGroup",
    props := [
      ("AutoScalingGroupName", ref_stack_name),
      ("AvailabilityZones", Val.vlist [
        Val.select 0 (Val.getAZs ref_region),
        Val.select 1 (Val.getAZs ref_region),
        Val.select 2 (Val.getAZs ref_region)]),
      ("DesiredCapacity", Val.str "3"),
      ("HealthCheckGracePeriod", Val.int 300),
      ("HealthCheckType", Val.str "EC2"),
      ("LaunchConfigurationName", Val.ref "LaunchConfiguration"),
      ("MaxSize", Val.str "3"),
      ("MinSize", Val.str "3"),
      ("TargetGroupARNs", Val.vlist [
        Val.importValue (Val.join "-" [Val.ref "LoadBalancerStackName", Val.str "api-tg"])]),
      ("TerminationPolicies", Val.vlist [Val.str "NewestInstance"]),
      ("Tags", Val.vlist [
        Val.obj [("Key", Val.str "Application"), ("Value", ref_stack_name),
                 ("PropagateAtLaunch", Val.bool true)],
        Val.obj [("Key", Val.str "Name"),
                 ("Value", Val.join "-" [ref_stack_name, Val.str "autoscaled"]),
                 ("PropagateAtLaunch", Val.bool true)]]),
      ("VPCZoneIdentifier", Val.vlist [
        Val.importValue (Val.join "-" [Val.ref "VPCStackName", Val.str "publicsubnet1"]),
        Val.importValue (Val.join "-" [Val.ref "VPCStackName", Val.str "publicsubnet2"]),
        Val.importValue (Val.join "-" [Val.ref "VPCStackName", Val.str "publicsubnet3"])])] }

/-- The full template built by api-asg.py, as a function of the current-date
string read at the start of the run.  The script declares no outputs. -/
def template (datestr : String) : Template :=
  { version := "2010-09-09",
    description := "Auto Scaling group for ACME.",
    parameters := [api_ami_param, api_iam_profile_param, api_instance_type_param,
                   keyname_param, sg_name_param, vpc_stackname_param,
                   lb_stackname_param],
    resources := [launch_configuration datestr, api_auto_scaling_group],
    outputs := [] }

end ApiAsg

/-! ### Analysis of the transcribed templates -/

/-- The Ref or GetAtt target of a value node, if it is one. -/
def refTarget : Val → Option String
  | Val.ref n => some n
  | Val.getAtt n _ => some n
  | _ => none

/-- The (stack-name parameter, suffix) of a cross-stack import whose argument
has the shape `Join("-", [Ref(param), "suffix"])` — the only shape any of the
five scripts passes to `ImportValue`. -/
def importSpecOf : Val → Option (String × String)
  | Val.importValue (Val.join "-" [Val.ref p, Val.str suf]) => some (p, suf)
  | _ => none

def isImportNode : Val → Bool
  | Val.importValue _ => true
  | _ => false

/-- All value subterms occurring in a resource's properties. -/
def resourceVals (r : Resource) : List Val := subValsKV r.props

/-- All value subterms occurring in an output's Value field. -/
def outputVals (o : TOutput) : List Val := subVals o.value

/-- All value subterms in a template's Resources and Outputs sections. -/
def templateVals (t : Template) : List Val :=
  t.resources.flatMap resourceVals ++ t.outputs.flatMap outputVals

/-- The cross-stack import specifications of a template, in order. -/
def importSpecs (t : Template) : List (String × String) :=
  (templateVals t).filterMap importSpecOf

/-- The conventional-name suffixes a template imports. -/
def importSuffixes (t : Template) : List String :=
  (importSpecs t).map (fun s => s.2)

/-- How many ImportValue nodes the template holds (used to check that
`importSpecs` misses none of them). -/
def importNodeCount (t : Template) : Nat :=
  ((templateVals t).filter isImportNode).length

/-- Raw `Sub` strings of the template's exports. -/
def exportRaws (t : Template) : List String :=
  t.outputs.filterMap (fun o => o.exportName)

/-- The stack-name pseudo-parameter token appearing in every export name. -/
def stackNameTok : String := "$\x7bAWS::StackName\x7d"

/-- The conventional suffix of an export name of the shape
`${AWS::StackName}-<suffix>`. -/
def exportSuffixOf (raw : String) : Option String :=
  if (stackNameTok ++ "-").data.isPrefixOf raw.data
  then some (String.mk (raw.data.drop (stackNameTok ++ "-").data.length))
  else none

/-- The conventional-name suffixes a template exports. -/
def exportSuffixes (t : Template) : List String :=
  (exportRaws t).filterMap exportSuffixOf

/-- Resolve an export name `Sub("${AWS::StackName}...")` for a stack deployed
under the name `stack`. -/
def resolveExportName (stack raw : String) : Option String :=
  if stackNameTok.data.isPrefixOf raw.data
  then some (String.mk (stack.data ++ raw.data.drop stackNameTok.data.length))
  else none

/-- The string an import name `Join("-", [Ref(p), suf])` resolves to once the
stack-name parameter `p` holds the value `stack`. -/
def joinDashName (stack suf : String) : String :=
  String.mk (stack.data ++ '-' :: suf.data)

/-- Pseudo-parameter names (`AWS::StackName`, `AWS::Region`, `AWS::StackId`):
resolved by CloudFormation itself, declared by no template. -/
def isPseudo (n : String) : Bool := "AWS::".data.isPrefixOf n.data

def paramNames (t : Template) : List String := t.parameters.map (fun p => p.name)

def resourceNames (t : Template) : List String := t.resources.map (fun r => r.name)

def outputNames (t : Template) : List String := t.outputs.map (fun o => o.name)

/-- The Ref/GetAtt targets among a list of value nodes. -/
def refNames (vs : List Val) : List String := vs.filterMap refTarget

/-- A name resolves if it is a pseudo parameter, a declared parameter, or one
of the resources already seen. -/
def resolvesAgainst (ps seen : List String) (n : String) : Bool :=
  isPseudo n || ps.contains n || seen.contains n

/-- Walk the resource list in construction order, checking that every
Ref/GetAtt target and every DependsOn target of a resource was declared
strictly earlier (parameters all precede resources in the five scripts). -/
def checkResourceOrder (ps : List String) : List String → List Resource → Bool
  | _, [] => true
  | seen, r :: rest =>
      (refNames (resourceVals r)).all (resolvesAgainst ps seen)
      && r.dependsOn.all (fun n => seen.contains n)
      && checkResourceOrder ps (seen ++ [r.name]) rest

/-- Every intra-document reference in the template resolves to a parameter or
to a resource declared strictly earlier; outputs (added last) may reference
any parameter or resource. -/
def wellOrdered (t : Template) : Bool :=
  checkResourceOrder (paramNames t) [] t.resources
  && (refNames (t.outputs.flatMap outputVals)).all
       (resolvesAgainst (paramNames t) (resourceNames t))

/-- All Ref/GetAtt targets in the Resources and Outputs sections. -/
def referencedNames (t : Template) : List String := refNames (templateVals t)

/-- Every declared parameter is referenced somewhere in Resources or
Outputs. -/
def noOrphanParams (t : Template) : Bool :=
  t.parameters.all (fun p => (referencedNames t).contains p.name)

/-- A parameter declaring both a default and an allowed-value set keeps the
default inside the set. -/
def defaultInAllowed (p : Param) : Bool :=
  match p.defaultValue, p.allowedValues with
  | some d, some avs => avs.contains d
  | _, _ => true

/-- troposphere's duplicate-title guard: adding a title already present in
the section raises `ValueError('duplicate key ...')`.  Folding a name list
through the guard reproduces whether any addition would hit that branch. -/
def addTitles (names : List String) : Except String (List String) :=
  names.foldlM (fun seen n =>
    if seen.contains n then Except.error ("duplicate key " ++ n)
    else Except.ok (seen ++ [n])) []

def exceptOk : Except String (List String) → Bool
  | Except.ok _ => true
  | Except.error _ => false

/-- The three per-section logical-name collections of a template are each
duplicate-free. -/
def namesDistinct (t : Template) : Prop :=
  (paramNames t).Nodup ∧ (resourceNames t).Nodup ∧ (outputNames t).Nodup

/-! ### The five scripts as one collection -/

/-- One script: its name, its output file, and the template it assembles when
run on a day whose `strftime("%Y%m%d")` is `datestr` (only api-asg.py reads
the clock; the other four scripts assemble the same template on every run). -/
structure Script where
  sname : String
  tfile : String
  tmpl : Template

def scripts (datestr : String) : List Script :=
  [⟨"vpc", Vpc.template_file, Vpc.template⟩,
   ⟨"security-groups", SecurityGroups.template_file, SecurityGroups.template⟩,
   ⟨"load-balancers", LoadBalancers.template_file, LoadBalancers.template⟩,
   ⟨"db", Db.template_file, Db.template⟩,
   ⟨"api-asg", ApiAsg.template_file, ApiAsg.template datestr⟩]

/-- Within a script collection, the import suffix `suf` of script `s` is
matched by the exports of exactly one other script. -/
def importsMatchedUniquely (ss : List Script) (s : Script) : Bool :=
  (importSuffixes s.tmpl).all (fun suf =>
    (ss.filter (fun u => u.sname != s.sname
      && (exportSuffixes u.tmpl).contains suf)).length == 1)

/-! ### The emission step -/

/-- A Python exception raised while opening or writing the output file.  In
Python 3 every such failure is an `OSError`, and `IOError` is an alias of
`OSError`, so the scripts' `except IOError` clause covers all of them;
`other` stands for any non-I/O exception class. -/
inductive PyExc where
  | ioError (msg : String)
  | other (msg : String)

/-- `os.path.abspath` of the relative output path for a process started in
`cwd`. -/
def abspathIn (cwd p : String) : String := cwd ++ "/" ++ p

/-- The final block shared verbatim by the five scripts:
`try: print(template.to_yaml(), file=open(template_file, "w"));
 print("Template written to file %s" % abspath(template_file))
 except IOError as e: print("Couldn't open or write to file (%s)." % e)`.
`wr` is the outcome of opening and writing the file.  Returned are the
console lines printed and the exception escaping the script, if any. -/
def emitStep (absPath : String) (wr : Except PyExc Unit) :
    List String × Option PyExc :=
  match wr with
  | Except.ok _ => (["Template written to file " ++ absPath], none)
  | Except.error (PyExc.ioError e) =>
      (["Couldn't open or write to file (" ++ e ++ ")."], none)
  | Except.error exc => ([], some exc)

/-! ### Per-run template assembly

The only run-dependent input any of the scripts reads is the current date in
api-asg.py (`datetime.datetime.now().strftime("%Y%m%d")`); the other four
scripts read nothing but their own literals, so a run on any day assembles
the same constant template. -/

def vpcRun (_datestr : String) : Template := Vpc.template

def securityGroupsRun (_datestr : String) : Template := SecurityGroups.template

def loadBalancersRun (_datestr : String) : Template := LoadBalancers.template

def dbRun (_datestr : String) : Template := Db.template

def apiAsgRun (datestr : String) : Template := ApiAsg.template datestr

/-- Replace the launch-configuration name (the only value holding the
embedded date token) by a fixed placeholder, leaving every other part of the
template untouched. -/
def scrubLcName (t : Template) : Template :=
  { t with resources := t.resources.map (fun r =>
      if r.name == "LaunchConfiguration" then
        { r with props := r.props.map (fun kv =>
            if kv.1 == "LaunchConfigurationName" then (kv.1, Val.str "") else kv) }
      else r) }

/-! ### Shared lemmas -/

/-- Resolving the export raw name `${AWS::StackName}-suf` under a stack name
gives, character for character, the string the matching import
`Join("-", [stack, suf])` produces. -/
theorem resolveExport_matches_join (stack suf : String) :
    resolveExportName stack (stackNameTok ++ "-" ++ suf)
      = some (joinDashName stack suf) := by
  have hdata : (stackNameTok ++ "-" ++ suf).data
      = stackNameTok.data ++ ('-' :: suf.data) := by
    simp [String.data_append]
  have hpre : stackNameTok.data.isPrefixOf
      (stackNameTok ++ "-" ++ suf).data = true := by
    rw [hdata]
    exact List.isPrefixOf_iff_prefix.mpr (List.prefix_append _ _)
  simp only [resolveExportName, hpre, if_true, hdata]
  rw [List.drop_left]
  rfl

/-! ### The claims -/

/-- C1 (counterexample): the database script's document imports only the three
private-subnet export names; it never imports the VPC `<stack>-id` export,
contrary to the claim that the security-groups, load-balancer, and database
scripts each import it. -/
theorem c1_db_imports_no_id :
    importSuffixes Db.template
        = ["privatesubnet1", "privatesubnet2", "privatesubnet3"]
      ∧ ¬ ("id" ∈ importSuffixes Db.template) :=
  ⟨rfl, by decide⟩

/-- C1 (amended): every cross-document import suffix in any script's document
is matched by the exports of exactly one other script, every ImportValue node
has the conventional `Join("-", [Ref(stack-param), suffix])` shape, and
resolving the matching export raw name under any stack name yields character
for character the string the import's Join produces; the VPC script exports
`<stack>-id` and the security-groups and load-balancer scripts import it,
while the database script imports the three `<stack>-privatesubnetN` names
instead. -/
theorem c1_imports_match_unique_exports (datestr : String) :
    ((scripts datestr).all (fun s =>
        importsMatchedUniquely (scripts datestr) s
        && (importNodeCount s.tmpl == (importSpecs s.tmpl).length))
      && (exportSuffixes Vpc.template).contains "id"
      && (importSuffixes SecurityGroups.template).contains "id"
      && (importSuffixes LoadBalancers.template).contains "id"
      && !((importSuffixes Db.template).contains "id")) = true
  ∧ ∀ stack suf, resolveExportName stack (stackNameTok ++ "-" ++ suf)
      = some (joinDashName stack suf) :=
  ⟨rfl, fun stack suf => resolveExport_matches_join stack suf⟩

/-- C2 (counterexample): it is not the case that all five documents both
contain a cross-stack import and declare an output: the VPC document has no
ImportValue node at all, and the auto-scaling document has no output. -/
theorem c2_not_all_import_and_export :
    ¬ ((scripts "20190101").all (fun s =>
        (importNodeCount s.tmpl != 0) && (s.tmpl.outputs.length != 0)) = true) := by
  decide

/-- C2 (amended): the security-groups, load-balancer, and database documents
each both import and export; the VPC document only exports (eight outputs,
zero imports) and the auto-scaling document only imports (four imports, zero
outputs). -/
theorem c2_import_export_profile (datestr : String) :
    importNodeCount Vpc.template = 0
  ∧ Vpc.template.outputs.length = 8
  ∧ importNodeCount SecurityGroups.template = 4
  ∧ SecurityGroups.template.outputs.length = 3
  ∧ importNodeCount LoadBalancers.template = 15
  ∧ LoadBalancers.template.outputs.length = 6
  ∧ importNodeCount Db.template = 3
  ∧ Db.template.outputs.length = 3
  ∧ importNodeCount (ApiAsg.template datestr) = 4
  ∧ (ApiAsg.template datestr).outputs.length = 0 :=
  ⟨rfl, rfl, rfl, rfl, rfl, rfl, rfl, rfl, rfl, rfl⟩

/-- C3: run with stack name `acme-test`, the security-groups document declares
exactly three outputs, exported as `acme-test-loadbalancer`, `acme-test-api`
and `acme-test-database`, each bound to the Ref of the corresponding security
group resource. -/
theorem c3_security_groups_outputs :
    SecurityGroups.template.outputs.map
        (fun o => (resolveExportName "acme-test" (o.exportName.getD ""), o.value))
      = [(some "acme-test-loadbalancer", Val.ref "LoadBalancerSecurityGroup"),
         (some "acme-test-api", Val.ref "APIInstanceSecurityGroup"),
         (some "acme-test-database", Val.ref "DBBrokerInstanceSecurityGroup")] :=
  rfl

/-- C4: for every script, two runs over the same static declarations assemble
identical documents up to the single current-date token: the four scripts
that read no clock build the same constant template on any two days, and the
auto-scaling templates of two days agree everywhere once the one
launch-configuration-name value is scrubbed; that value is exactly
`Join("-", [StackName, "lc-" ++ datestr])`, the only place the date enters. -/
theorem c4_runs_differ_only_in_date (d1 d2 : String) :
    vpcRun d1 = vpcRun d2
  ∧ securityGroupsRun d1 = securityGroupsRun d2
  ∧ loadBalancersRun d1 = loadBalancersRun d2
  ∧ dbRun d1 = dbRun d2
  ∧ scrubLcName (apiAsgRun d1) = scrubLcName (apiAsgRun d2)
  ∧ (∀ d, ((apiAsgRun d).resources.map (fun r =>
        r.props.filterMap (fun kv =>
          if kv.1 == "LaunchConfigurationName" then some kv.2 else none)))
      = [[Val.join "-" [ref_stack_name, Val.str ("lc-" ++ d)]],
         [Val.ref "LaunchConfiguration"]]) :=
  ⟨rfl, rfl, rfl, rfl, rfl, fun _ => rfl⟩

/-- C5: an I/O failure while opening or writing the output file is caught by
the scripts' `except IOError` clause: the console shows exactly one
diagnostic line naming the exception, and no exception escapes. -/
theorem c5_io_failure_caught (absPath msg : String) :
    emitStep absPath (Except.error (PyExc.ioError msg))
      = (["Couldn't open or write to file (" ++ msg ++ ")."], none) :=
  rfl

/-- C6: in each of the five documents, every declared parameter is referenced
at least once (by Ref or GetAtt, possibly inside a composed value) in the
Resources or Outputs sections. -/
theorem c6_no_orphan_parameters (datestr : String) :
    ((scripts datestr).all (fun s => noOrphanParams s.tmpl)) = true :=
  rfl

/-- C7: in each of the five documents, every Ref/GetAtt/DependsOn target
resolves to a parameter or to a resource added strictly earlier in
construction order (outputs, added last, resolve against all parameters and
resources), or is a platform pseudo parameter; cross-stack imports are the
separate ImportValue nodes. -/
theorem c7_references_resolve_in_order (datestr : String) :
    ((scripts datestr).all (fun s => wellOrdered s.tmpl)) = true :=
  rfl

/-- C8: each script writes to its fixed relative `templates/<name>.yaml`
path, and on success the console shows exactly one confirmation line that
ends with (hence contains) the absolute form of that path. -/
theorem c8_fixed_paths_and_confirmation (datestr cwd : String) :
    (scripts datestr).map (fun s => s.tfile)
      = ["templates/vpc.yaml", "templates/security-groups.yaml",
         "templates/load-balancers.yaml", "templates/db.yaml",
         "templates/api-asg.yaml"]
  ∧ ∀ tf, emitStep (abspathIn cwd tf) (Except.ok ())
        = (["Template written to file " ++ abspathIn cwd tf], none)
      ∧ List.IsSuffix (abspathIn cwd tf).data
          ("Template written to file " ++ abspathIn cwd tf).data :=
  ⟨rfl, fun tf =>
    ⟨rfl, "Template written to file ".data,
     (String.data_append "Template written to file " (abspathIn cwd tf)).symm⟩⟩

/-- C9: the two parameters that declare both a default and an allowed-value
set (the InstanceType parameter of db.py and of api-asg.py) keep their
default `m3.medium` inside the set, and no other parameter of any document
declares both. -/
theorem c9_instance_type_default_allowed (datestr : String) :
    ((scripts datestr).all (fun s => s.tmpl.parameters.all defaultInAllowed)
      && (scripts datestr).all (fun s => s.tmpl.parameters.all (fun p =>
           !(p.defaultValue.isSome && p.allowedValues.isSome)
             || (p.name == "InstanceType")))) = true
  ∧ Db.db_instancetype_param.defaultValue = some "m3.medium"
  ∧ (Db.db_instancetype_param.allowedValues.getD []).contains "m3.medium" = true
  ∧ ApiAsg.api_instance_type_param.defaultValue = some "m3.medium"
  ∧ (ApiAsg.api_instance_type_param.allowedValues.getD []).contains "m3.medium"
      = true :=
  ⟨rfl, rfl, rfl, rfl, rfl⟩

/-- C10: within each document the parameter names, the resource logical
names, and the output names are each pairwise distinct, so folding them
through troposphere's duplicate-title guard never reaches its error
branch. -/
theorem c10_logical_names_distinct (datestr : String) :
    ((scripts datestr).all (fun s =>
        exceptOk (addTitles (paramNames s.tmpl))
        && exceptOk (addTitles (resourceNames s.tmpl))
        && exceptOk (addTitles (outputNames s.tmpl)))) = true
  ∧ namesDistinct Vpc.template
  ∧ namesDistinct SecurityGroups.template
  ∧ namesDistinct LoadBalancers.template
  ∧ namesDistinct Db.template
  ∧ namesDistinct (ApiAsg.template datestr) :=
  ⟨rfl,
   ⟨of_decide_eq_true rfl, of_decide_eq_true rfl, of_decide_eq_true rfl⟩,
   ⟨of_decide_eq_true rfl, of_decide_eq_true rfl, of_decide_eq_true rfl⟩,
   ⟨of_decide_eq_true rfl, of_decide_eq_true rfl, of_decide_eq_true rfl⟩,
   ⟨of_decide_eq_true rfl, of_decide_eq_true rfl, of_decide_eq_true rfl⟩,
   ⟨of_decide_eq_true rfl, of_decide_eq_true rfl, of_decide_eq_true rfl⟩⟩
